import Mathlib

/-!
Verification of the pryx host supervisor / RPC broker against its
natural-language specification.

The definitions below are a shallow embedding of the Rust sources under
`apps/host/src`, chiefly `sidecar/process.rs` (supervisor, RPC broker, port
parser, backoff), `server/auth.rs` (authentication middleware) and
`server/routes.rs` (static file handler).  Pure Rust functions become Lean
functions on `List Char` / `String`; the stateful supervisor and broker
become explicit state-passing functions and a small-step transition relation.
Machine integers are modelled as `Nat`/`Int` (with explicit wrapping where the
source casts), `f64` backoff arithmetic as exact `ℚ` with the final `as u64`
cast as floor-toward-zero, and fallible paths as `Option`/`Except`.
-/

namespace Pryx

/-! ## Rust string primitives used by `extract_port_from_line`
(`sidecar/process.rs` lines 788-819).  Lines are modelled as `List Char`. -/

/-- Rust `str::strip_prefix`: `some rest` when `lit` starts the string,
`none` otherwise. -/
def dropLiteral : List Char → List Char → Option (List Char)
  | [], s => some s
  | _, [] => none
  | p :: ps, c :: cs => if p = c then dropLiteral ps cs else none

/-- Rust `str::trim`: whitespace removed from both ends. -/
def rustTrim (s : List Char) : List Char :=
  ((s.dropWhile Char.isWhitespace).reverse.dropWhile Char.isWhitespace).reverse

/-- Rust `v.rsplit(':').next().unwrap()`: the suffix after the last colon
(the whole string when there is no colon). -/
def afterLastColon (s : List Char) : List Char :=
  (s.reverse.takeWhile (fun c => c != ':')).reverse

/-- Rust `str::parse::<u16>()`: an optional leading `+`, then one or more
decimal digits whose value fits in `0..=65535`; anything else fails. -/
def rustParseU16 (s : List Char) : Option Nat :=
  let ds := match s with
    | '+' :: rest => rest
    | _ => s
  if ds.isEmpty then none
  else if ds.all Char.isDigit then
    let v := ds.foldl (fun acc c => 10 * acc + (c.toNat - 48)) 0
    if v ≤ 65535 then some v else none
  else none

/-- The literal `PRYX_CORE_LISTEN_ADDR=` that announces the child's port. -/
def portMarker : List Char := "PRYX_CORE_LISTEN_ADDR=".toList

/-- The generic second branch of `extract_port_from_line`
(`process.rs` lines 804-817): take the suffix after the last `:` when it is
nonempty, keep its first run of decimal digits, and parse that as `u16`.
(`char::is_numeric` coincides with `Char.isDigit` on the ASCII lines this
parser sees.) -/
def fallbackPort (line : List Char) : Option Nat :=
  if line.contains ':' then
    let potential := afterLastColon line
    if potential.isEmpty then none
    else
      let digits := (potential.dropWhile (fun c => !c.isDigit)).takeWhile Char.isDigit
      if digits.isEmpty then none else rustParseU16 digits
  else none

/-- `extract_port_from_line` (`process.rs` lines 795-819): if the line starts
with `PRYX_CORE_LISTEN_ADDR=`, parse the segment after the last `:` of the
trimmed remainder as `u16` and return it on success; otherwise (and for lines
without the marker) run the generic fallback on the whole line. -/
def extract_port_from_line (line : List Char) : Option Nat :=
  match dropLiteral portMarker line with
  | some rest =>
    match rustParseU16 (afterLastColon (rustTrim rest)) with
    | some p => some p
    | none => fallbackPort line
  | none => fallbackPort line

/-! ## Backoff (`sidecar/process.rs` lines 821-827) -/

/-- `SidecarConfig` (`sidecar/mod.rs` lines 37-48), restricted to the fields
the verified components read.  `backoff_multiplier: f64` is modelled as an
exact rational; every multiplication the claims exercise (integer base times
powers of 2.0) is exact in `f64` as well. -/
structure SidecarConfig where
  max_restarts : Nat
  initial_backoff_ms : Nat
  backoff_multiplier : ℚ
deriving DecidableEq

/-- `SidecarConfig::new` defaults (`sidecar/mod.rs` lines 50-63):
`max_restarts = 10`, `initial_backoff_ms = 1000`, `backoff_multiplier = 2.0`. -/
def defaultSidecarConfig : SidecarConfig :=
  { max_restarts := 10, initial_backoff_ms := 1000, backoff_multiplier := 2 }

/-- Rust `attempt as i32` for a `u32` value: two's-complement wrap. -/
def u32ToI32 (n : Nat) : Int :=
  if n % 4294967296 < 2147483648 then (n % 4294967296 : Int)
  else (n % 4294967296 : Int) - 4294967296

/-- `(attempt as i32 - 1).clamp(0, 10)` as the nonnegative exponent passed to
`powi`. -/
def backoffExp (attempt : Nat) : Nat :=
  (min 10 (max 0 (u32ToI32 attempt - 1))).toNat

/-- `calculate_backoff` (`process.rs` lines 821-827):
`initial_backoff_ms as f64 * multiplier.powi((attempt-1).clamp(0,10)) as u64`;
the `as u64` cast truncates toward zero and sends negative values to zero,
which is `Int.toNat ∘ Int.floor` on nonnegative and negative rationals alike. -/
def calculate_backoff (attempt : Nat) (config : SidecarConfig) : Nat :=
  (Int.floor ((config.initial_backoff_ms : ℚ) *
    config.backoff_multiplier ^ backoffExp attempt)).toNat

example : extract_port_from_line "PRYX_CORE_LISTEN_ADDR=127.0.0.1:8080".toList = some 8080 := by
  decide

example : extract_port_from_line "PRYX_CORE_LISTEN_ADDR=:3000".toList = some 3000 := by decide

example : extract_port_from_line "Server listening on port :9090".toList = some 9090 := by decide

example : extract_port_from_line "no port here".toList = none := by decide

example : extract_port_from_line "PRYX_CORE_LISTEN_ADDR=:0".toList = some 0 := by decide

/-- Integer-base, integer-power backoff values are computed exactly. -/
theorem floor_cast_mul_pow (i e : Nat) :
    (Int.floor ((i : ℚ) * (2 : ℚ) ^ e)).toNat = i * 2 ^ e := by
  have h : ((i : ℚ) * (2 : ℚ) ^ e) = ((i * 2 ^ e : ℕ) : ℚ) := by push_cast; ring
  rw [h, Int.floor_natCast, Int.toNat_natCast]

example : calculate_backoff 1 defaultSidecarConfig = 1000 := by
  show (Int.floor (((1000 : ℕ) : ℚ) * (2 : ℚ) ^ backoffExp 1)).toNat = 1000
  rw [show backoffExp 1 = 0 by decide, floor_cast_mul_pow]; decide

example : calculate_backoff 3 defaultSidecarConfig = 4000 := by
  show (Int.floor (((1000 : ℕ) : ℚ) * (2 : ℚ) ^ backoffExp 3)).toNat = 4000
  rw [show backoffExp 3 = 2 by decide, floor_cast_mul_pow]; decide

/-! ## JSON values and the RPC broker (`sidecar/process.rs`)

`serde_json::Value` restricted to what the broker inspects: objects with
string keys, integers (the `id` and error `code` fields), strings, booleans,
arrays, null. -/

inductive Json where
  | null
  | bool (b : Bool)
  | num (n : Int)
  | str (s : String)
  | arr (elems : List Json)
  | obj (fields : List (String × Json))

/-- `Value::get(key)` on an object: the first field with that key. -/
def Json.get : Json → String → Option Json
  | .obj fields, key => (fields.find? (fun kv => kv.1 == key)).map (fun kv => kv.2)
  | _, _ => none

/-- `Value::as_i64`. -/
def Json.asInt : Json → Option Int
  | .num n => some n
  | _ => none

/-- `Value::as_str`. -/
def Json.asStr : Json → Option String
  | .str s => some s
  | _ => none

/-- The stdout reader's response routing (`process.rs` lines 441-449): for an
inbound frame classified as a response, the value it sends to the waiting
caller through the oneshot channel is `val.get("result").cloned()
.unwrap_or(Value::Null)` — only the `result` member, never the whole frame. -/
def routeResponsePayload (val : Json) : Json :=
  (val.get "result").getD Json.null

/-- `call_rpc`'s inspection of the value received on the channel
(`process.rs` lines 340-355): if it has an `error` member, fail with that
member's `code` (default `-1`) and `message` (default `"Unknown error"`),
else succeed with the value. -/
def interpretRpcReply (val : Json) : Except (Int × String) Json :=
  match val.get "error" with
  | some err =>
      .error (((err.get "code").bind Json.asInt).getD (-1),
              ((err.get "message").bind Json.asStr).getD "Unknown error")
  | none => .ok val

/-- End-to-end outcome `call_rpc` delivers for a matching inbound frame: the
reader forwards only the `result` member, and `call_rpc` then inspects what
arrived on the channel. -/
def rpcCallOutcome (frame : Json) : Except (Int × String) Json :=
  interpretRpcReply (routeResponsePayload frame)

/-! ### `call_rpc` as a state transformer (`process.rs` lines 295-368)

State: the id counter `next_rpc_id` (initialised to 1 in
`SidecarProcess::new`, line 50) and the key set of the `pending_requests`
table.  The environment fixes the circumstances the call runs under: whether
a stdin handle is present, how the three stdin writes fare, and what the
10-second wait on the oneshot receiver yields. -/

inductive WriteResult
  | ok
  | failWrite
  | failNewline
  | failFlush
deriving DecidableEq

inductive AwaitResult
  | reply (frame : Json)
  | chanClosed
  | timedOut

structure RpcEnv where
  stdinAvailable : Bool
  writeResult : WriteResult
  awaitResult : AwaitResult

structure RpcState where
  next_rpc_id : Nat
  pending_requests : Finset Nat
deriving DecidableEq

inductive RpcOutcome
  | success (v : Json)
  | jsonRpcError (code : Int) (message : String)
  | stdinUnavailable
  | writeFailed
  | channelClosed
  | requestTimedOut

/-- `call_rpc` (`process.rs` lines 295-368).  Allocate the id and bump the
counter (296-301); insert the waiter (303-307); if stdin is absent, remove
the id and fail (333-337); on any write or flush error, remove the id and
fail (317-332); otherwise the wait either receives the reader's payload (the
reader removed the id when it sent, lines 443-449), sees the channel closed,
or times out — the latter two remove the id themselves (357-366). -/
def call_rpc (s : RpcState) (env : RpcEnv) : RpcState × RpcOutcome :=
  let id := s.next_rpc_id
  let inserted : RpcState := ⟨s.next_rpc_id + 1, insert id s.pending_requests⟩
  let removed : RpcState := ⟨inserted.next_rpc_id, inserted.pending_requests.erase id⟩
  if env.stdinAvailable then
    match env.writeResult with
    | .failWrite | .failNewline | .failFlush => (removed, .writeFailed)
    | .ok =>
      match env.awaitResult with
      | .reply frame =>
          match interpretRpcReply (routeResponsePayload frame) with
          | .error (c, m) => (removed, .jsonRpcError c m)
          | .ok v => (removed, .success v)
      | .chanClosed => (removed, .channelClosed)
      | .timedOut => (removed, .requestTimedOut)
  else
    (removed, .stdinUnavailable)

/-- A JSON-RPC error response frame, as the child would send it:
`{"jsonrpc":"2.0","error":{"code":-32600,"message":"Invalid Request"},"id":1}`. -/
def errorFrame : Json :=
  .obj [("jsonrpc", .str "2.0"),
        ("error", .obj [("code", .num (-32600)), ("message", .str "Invalid Request")]),
        ("id", .num 1)]

example : rpcCallOutcome errorFrame = .ok .null := rfl

example : interpretRpcReply errorFrame = .error (-32600, "Invalid Request") := rfl

/-! ## The pending-requests table over its lifetime

Every access to `pending_requests` in the source, as events on its key set.
The monitor's child-exit handling (`process.rs` lines 251-276) and `stop`
(lines 173-215) never touch `pending_requests`; no drain happens anywhere. -/

inductive PendingEvent
  | insertWaiter (id : Nat)
  | resolve (id : Nat)
  | writeFail (id : Nat)
  | chanClosed (id : Nat)
  | rpcTimeout (id : Nat)
  | childExit

/-- The effect of each event on the table's key set:
`insertWaiter` is `pending.insert(id, tx)` in `call_rpc` (lines 303-307);
`resolve` is the reader's `pending.remove(&id)` on a matching response
(line 445); `writeFail`, `chanClosed` and `rpcTimeout` are the
`pending.remove(&id)` calls on `call_rpc`'s failure paths (lines 317-337 and
357-366); `childExit` is the child exiting — the monitor (lines 251-276) and
`stop` (lines 173-215) clear only the child handle and the supervisor state,
leaving `pending_requests` untouched. -/
def pendingStep (s : Finset Nat) : PendingEvent → Finset Nat
  | .insertWaiter id => insert id s
  | .resolve id => s.erase id
  | .writeFail id => s.erase id
  | .chanClosed id => s.erase id
  | .rpcTimeout id => s.erase id
  | .childExit => s

/-! ## Request-id allocation (`process.rs` lines 37-52, 295-301, 370-476)

`next_rpc_id` is set to 1 once, in `SidecarProcess::new` (line 50).
`call_rpc` allocates the current value and increments (lines 296-301).
`spawn_sidecar` (lines 370-476) — the respawn path — resets the child
handle, stdin and stdout readers but never writes `next_rpc_id`. -/

inductive BrokerEvent
  | call
  | respawn
deriving DecidableEq

/-- The ids handed out by a sequence of calls and respawns, starting from the
given counter value: a call yields the counter and bumps it, a respawn leaves
the counter alone. -/
def allocIds : Nat → List BrokerEvent → List Nat
  | _, [] => []
  | n, .call :: es => n :: allocIds (n + 1) es
  | n, .respawn :: es => allocIds n es

/-- Ids handed out over the whole `SidecarProcess` lifetime, from the initial
counter value 1. -/
def allocIdsFromStart (es : List BrokerEvent) : List Nat :=
  allocIds 1 es

/-! ## Authentication middleware (`server/auth.rs` lines 9-45)

A request is modelled by the string values of its `Authorization` and
`Cookie` headers (`none` when the header is absent).  The middleware is run
with the server configured and the sidecar initialised (otherwise it answers
500 / 503 before looking at credentials, lines 13-21). -/

inductive AuthOutcome
  | proceed
  | unauthorized
deriving DecidableEq

/-- `auth_middleware` (`auth.rs` lines 9-45): proceed when the
`Authorization` header equals `Bearer <token>` exactly (lines 26-32), or
when the `Cookie` header CONTAINS `pryx_admin_token=<token>` as a substring
— Rust `str::contains` (lines 35-41); otherwise answer 401 (line 44). -/
def auth_middleware (authHeader cookieHeader : Option String)
    (expected_token : String) : AuthOutcome :=
  if authHeader = some ("Bearer " ++ expected_token) then .proceed
  else
    match cookieHeader with
    | some c =>
        if ("pryx_admin_token=" ++ expected_token).toList <:+: c.toList then .proceed
        else .unauthorized
    | none => .unauthorized

/-- Split a cookie header on the standard separator `"; "` into its cookie
pairs. -/
def splitPairs : List Char → List (List Char)
  | [] => [[]]
  | ';' :: ' ' :: rest => [] :: splitPairs rest
  | c :: rest =>
    match splitPairs rest with
    | [] => [[c]]
    | p :: ps => (c :: p) :: ps

/-- The spec's reading of the cookie credential, for comparison with the
code: the `Cookie` header carries the admin cookie when one of its
`"; "`-separated cookie pairs is exactly `pryx_admin_token=<token>`. -/
def specHasAdminCookie (cookieHeader : Option String) (token : String) : Bool :=
  match cookieHeader with
  | some c => (splitPairs c.toList).contains (("pryx_admin_token=" ++ token).toList)
  | none => false

/-- A `Cookie` header value structurally carrying the cookie pair
`pryx_admin_token=<token>`: the pair occurs in the header, preceded by
nothing or a `"; "` separator and followed by nothing or a `;`. -/
def carriesAdminCookie (c : String) (token : String) : Prop :=
  ∃ pre post : List Char,
    c.toList = pre ++ ("pryx_admin_token=" ++ token).toList ++ post ∧
    (pre = [] ∨ ∃ q, pre = q ++ [';', ' ']) ∧
    (post = [] ∨ ∃ r, post = ';' :: r)

example :
    auth_middleware none (some "xpryx_admin_token=tok") "tok" = .proceed := by decide

example :
    auth_middleware (some "Bearer tok") none "tok" = .proceed := by decide

example :
    auth_middleware none (some "a=1; pryx_admin_token=tok; b=2") "tok" = .proceed := by decide

example :
    auth_middleware none (some "a=1") "tok" = .unauthorized := by decide

/-! ## Static file handler (`server/routes.rs` lines 22-92)

Paths are modelled as lists of segments: the request path is the result of
Rust `path.split('/')` on `uri.path().trim_start_matches('/')`, the base
directory is `std::fs::canonicalize(&config.static_files_path)` (assumed to
succeed; on failure the handler answers 500 before touching the request).
`PathBuf::join` of relative segments is list append, and `Path::starts_with`
on such paths is list prefix. -/

inductive StaticResponse
  | badRequest
  | forbidden
  | serve (target : List String)
deriving DecidableEq

/-- `path.contains("..")` (`routes.rs` line 48) on the split request path:
since `'/'` is not `'.'`, a `..` substring match never spans a `/`, so the
string check is equivalent to some segment containing `..`. -/
def pathHasDotdotSub (segs : List String) : Bool :=
  segs.any (fun s => decide (['.', '.'] <:+: s.toList))

/-- The `sanitized_path` of `routes.rs` lines 42-45: drop empty and `..`
segments. -/
def sanitizeSegs (segs : List String) : List String :=
  segs.filter (fun s => !(s == "") && !(s == ".."))

/-- The `target_path` of `routes.rs` lines 52-59: `base/index.html` when the
sanitized path is empty (which also covers the empty path; the literal
`index.html` case joins to the same list), else the join of base and the
sanitized path. -/
def staticTarget (base segs : List String) : List String :=
  let sanitized := sanitizeSegs segs
  if sanitized.isEmpty then base ++ ["index.html"] else base ++ sanitized

/-- `static_files_handler` (`routes.rs` lines 22-92): reject with 400 when
the raw path contains `..` (line 48, before any target is formed); answer
403 when the joined target does not start with the canonical base (lines
62-64); otherwise proceed to the filesystem with the target. -/
def static_files_handler (base segs : List String) : StaticResponse :=
  if pathHasDotdotSub segs then .badRequest
  else if base <+: staticTarget base segs then .serve (staticTarget base segs)
  else .forbidden

/-- A symlink table for modelling `std::fs::canonicalize`: each entry maps
the absolute path of a symlink to its absolute target, the targets being
canonical and symlink-free. -/
abbrev SymlinkTable := List (List String × List String)

/-- `std::fs::canonicalize` on a lexically clean absolute path (no `..`, as
produced by `staticTarget`): resolve component by component, replacing any
prefix that is a symlink by that symlink's target.  This is the
canonicalization the handler itself applies to the base directory
(`routes.rs` line 27) — and never applies to the target path. -/
def resolveSymlinks (links : SymlinkTable) (p : List String) : List String :=
  p.foldl
    (fun acc seg =>
      let cand := acc ++ [seg]
      match links.find? (fun kv => kv.1 == cand) with
      | some kv => kv.2
      | none => cand)
    []

/-- A filesystem with one symlink beneath the static root:
`srv/ui/link -> /etc`. -/
def demoLinks : SymlinkTable := [(["srv", "ui", "link"], ["etc"])]

example : static_files_handler ["srv", "ui"] ["..", "etc", "passwd"] = .badRequest := by decide

example : static_files_handler ["srv", "ui"] ["a..b"] = .badRequest := by decide

example :
    static_files_handler ["srv", "ui"] ["app.js"] = .serve ["srv", "ui", "app.js"] := by
  decide

example : static_files_handler ["srv", "ui"] [] = .serve ["srv", "ui", "index.html"] := by
  decide

/-! ## The supervisor as a small-step transition system
(`sidecar/process.rs` lines 173-293)

Shared cells of `SidecarProcess`: `state`, `child` (modelled by `none` =
handle absent, `some true` = alive, `some false` = exited and reapable),
and the never-written field `crash_count` (line 29, read by `status`, line
71).  The monitor task (lines 217-289) keeps its own local `crash_count`
(line 218).  Program counters record where the monitor and a `stop` call
stand; `stoppingSeen` is a history variable set when `stop` writes
`Stopping`.  `start()` inside the restart path is collapsed to one step
(spawn succeeds and the state reaches `Running`, or spawning fails and the
state returns to `Stopped`); none of the verified properties depend on its
internal interleavings.  `spawns` counts successful spawns. -/

inductive SidecarState
  | stopped
  | starting
  | running
  | stopping
  | restarting (backoff_ms : Nat)
  | crashed (attempts : Nat)
deriving DecidableEq

inductive MonPC
  | atRead
  | atCheck (observed : SidecarState)
  | atCrash
  | atBackoff
  | exited
deriving DecidableEq

inductive StopPC
  | idle
  | didSetStopping
  | tookChild
  | finished
deriving DecidableEq

structure SupSys where
  cfg : SidecarConfig
  state : SidecarState
  child : Option Bool
  monPC : MonPC
  stopPC : StopPC
  localCrash : Nat
  sharedCrash : Nat
  spawns : Nat
  stoppingSeen : Bool
deriving DecidableEq

/-- `status()` (`process.rs` lines 54-87) reports the field
`self.crash_count` (line 71). -/
def statusCrashCount (s : SupSys) : Nat :=
  s.sharedCrash

/-- One interleaved step of the monitor loop, a concurrent `stop()` call, or
the child exiting.  Each constructor names the source lines it embeds. -/
inductive SupStep : SupSys → SupSys → Prop
  /-- Monitor loop top: clone the shared state (line 221). -/
  | readState (s : SupSys) (h : s.monPC = .atRead) :
      SupStep s { s with monPC := .atCheck s.state }
  /-- Observed state is none of `Running`/`Starting`: sleep and loop
  (lines 224-229, 281-287). -/
  | checkIdle (s : SupSys) (obs : SidecarState) (h : s.monPC = .atCheck obs)
      (hobs : obs ≠ .running ∧ obs ≠ .starting) :
      SupStep s { s with monPC := .atRead }
  /-- Observed `Running`/`Starting` and `try_wait` finds the child alive:
  sleep and loop (lines 230-249, 277-279). -/
  | checkAlive (s : SupSys) (obs : SidecarState) (h : s.monPC = .atCheck obs)
      (hobs : obs = .running ∨ obs = .starting) (hchild : s.child = some true) :
      SupStep s { s with monPC := .atRead }
  /-- Observed `Running`/`Starting` and the child handle is gone or the child
  exited: enter the crash path (lines 230-251). -/
  | checkDead (s : SupSys) (obs : SidecarState) (h : s.monPC = .atCheck obs)
      (hobs : obs = .running ∨ obs = .starting) (hchild : s.child ≠ some true) :
      SupStep s { s with monPC := .atCrash }
  /-- Crash handling when the new local count exceeds a positive
  `max_restarts`: clear the handle, set `Crashed`, and return from the
  monitor (lines 252-264). -/
  | crashExceeded (s : SupSys) (h : s.monPC = .atCrash)
      (hmax : 0 < s.cfg.max_restarts ∧ s.cfg.max_restarts < s.localCrash + 1) :
      SupStep s { s with child := none, localCrash := s.localCrash + 1,
                         state := .crashed (s.localCrash + 1), monPC := .exited }
  /-- Crash handling under the restart cap: clear the handle, set
  `Restarting` with the computed backoff, sleep (lines 252-272). -/
  | crashRestart (s : SupSys) (h : s.monPC = .atCrash)
      (hmax : ¬(0 < s.cfg.max_restarts ∧ s.cfg.max_restarts < s.localCrash + 1)) :
      SupStep s { s with child := none, localCrash := s.localCrash + 1,
                         state := .restarting (calculate_backoff (s.localCrash + 1) s.cfg),
                         monPC := .atBackoff }
  /-- The backoff sleep ends and `start()` respawns successfully
  (lines 272-276, 98-171). -/
  | restartSpawn (s : SupSys) (h : s.monPC = .atBackoff) :
      SupStep s { s with state := .running, child := some true,
                         spawns := s.spawns + 1, monPC := .atRead }
  /-- The backoff sleep ends and `start()` fails to spawn
  (lines 274-276, 166-169). -/
  | restartSpawnFail (s : SupSys) (h : s.monPC = .atBackoff) :
      SupStep s { s with state := .stopped, monPC := .atRead }
  /-- The child process exits on its own. -/
  | childDies (s : SupSys) (h : s.child = some true) :
      SupStep s { s with child := some false }
  /-- `stop()` begins: write `Stopping` (line 175). -/
  | stopBegin (s : SupSys) (h : s.stopPC = .idle) :
      SupStep s { s with state := .stopping, stoppingSeen := true,
                         stopPC := .didSetStopping }
  /-- `stop()` takes the child handle out of the shared cell and kills the
  process group (lines 177-207). -/
  | stopReap (s : SupSys) (h : s.stopPC = .didSetStopping) :
      SupStep s { s with child := none, stopPC := .tookChild }
  /-- `stop()` finishes: write `Stopped` and clear timing (lines 210-214). -/
  | stopFinish (s : SupSys) (h : s.stopPC = .tookChild) :
      SupStep s { s with state := .stopped, stopPC := .finished }

/-- Reachability along interleaved steps. -/
def SupReach : SupSys → SupSys → Prop :=
  Relation.ReflTransGen SupStep

/-- A freshly started supervisor: `start()` has succeeded once, the monitor
sits at its loop top, no `stop()` has run, both crash counters are 0
(`SidecarProcess::new`, lines 38-52, and `monitor`, line 218). -/
def supInit (cfg : SidecarConfig) : SupSys :=
  { cfg := cfg, state := .running, child := some true, monPC := .atRead,
    stopPC := .idle, localCrash := 0, sharedCrash := 0, spawns := 1,
    stoppingSeen := false }

/-! # Theorems for the claims -/

/-- Stripping a literal off a string that starts with it leaves the rest. -/
theorem dropLiteral_append (p s : List Char) : dropLiteral p (p ++ s) = some s := by
  induction p with
  | nil => simp [dropLiteral]
  | cons c cs ih => simpa [dropLiteral] using ih

/-- Claim C8, counterexample: the claim requires the extracted port to lie in
`1..=65535`, but on the marker line `PRYX_CORE_LISTEN_ADDR=:0` the code
parses `0` as a valid `u16` and returns it — there is no lower-bound filter
anywhere in `extract_port_from_line`. -/
theorem extract_port_accepts_zero :
    extract_port_from_line "PRYX_CORE_LISTEN_ADDR=:0".toList = some 0
    ∧ ¬ (1 ≤ 0 ∧ 0 ≤ 65535) := by
  exact ⟨by decide, by decide⟩

/-- Claim C8 (amended): for every line beginning with
`PRYX_CORE_LISTEN_ADDR=`, extraction returns the decimal integer after the
last `:` exactly when it parses as a `u16` — the range `0..=65535`, port 0
included, with no `1..=65535` filter (and when it does not parse, the
generic digit-run fallback may still return a port).  The four concrete
examples of the claim all hold. -/
theorem extract_port_amended :
    (∀ (rest : List Char) (p : Nat),
      rustParseU16 (afterLastColon (rustTrim rest)) = some p →
      extract_port_from_line (portMarker ++ rest) = some p)
    ∧ extract_port_from_line "PRYX_CORE_LISTEN_ADDR=127.0.0.1:8080".toList = some 8080
    ∧ extract_port_from_line "PRYX_CORE_LISTEN_ADDR=:3000".toList = some 3000
    ∧ extract_port_from_line "Server listening on port :9090".toList = some 9090
    ∧ extract_port_from_line "no port here".toList = none := by
  refine ⟨?_, by decide, by decide, by decide, by decide⟩
  intro rest p h
  simp [extract_port_from_line, dropLiteral_append, h]

/-- `backoffExp` for attempt counts below `i32::MAX` is `min (n-1) 10`. -/
theorem backoffExp_small (n : Nat) (h : n < 2147483648) :
    backoffExp n = min (n - 1) 10 := by
  have hm : n % 4294967296 = n := Nat.mod_eq_of_lt (by omega)
  simp only [backoffExp, u32ToI32, hm]
  rw [if_pos (by exact_mod_cast h)]
  omega

/-- Claim C9: `calculate_backoff` computes
`initial_backoff_ms × multiplier ^ clamp(attempt-1, 0, 10)` (the `u64` cast
flooring the product); for any config with multiplier > 1 the delay is
monotone up to attempt 10, and the defaults give 1000, 2000, 4000 ms for
attempts 1, 2, 3. -/
theorem backoff_formula_monotone_defaults :
    ∀ (cfg : SidecarConfig) (n : Nat),
      (n < 2147483648 →
        calculate_backoff n cfg =
          (Int.floor ((cfg.initial_backoff_ms : ℚ) *
            cfg.backoff_multiplier ^ (min (n - 1) 10))).toNat)
      ∧ (1 < cfg.backoff_multiplier → 1 ≤ n → n ≤ 10 →
          calculate_backoff n cfg ≤ calculate_backoff (n + 1) cfg)
      ∧ calculate_backoff 1 defaultSidecarConfig = 1000
      ∧ calculate_backoff 2 defaultSidecarConfig = 2000
      ∧ calculate_backoff 3 defaultSidecarConfig = 4000 := by
  have hdef : ∀ e v : Nat, 1000 * 2 ^ e = v →
      (Int.floor (((1000 : ℕ) : ℚ) * (2 : ℚ) ^ e)).toNat = v := by
    intro e v hv
    rw [floor_cast_mul_pow, hv]
  refine fun cfg n => ⟨?_, ?_, ?_, ?_, ?_⟩
  · intro h
    rw [calculate_backoff, backoffExp_small n h]
  · intro hmul h1 h10
    unfold calculate_backoff
    apply Int.toNat_le_toNat
    apply Int.floor_le_floor
    have hexp : backoffExp n ≤ backoffExp (n + 1) := by
      rw [backoffExp_small n (by omega), backoffExp_small (n + 1) (by omega)]
      omega
    have hpow : cfg.backoff_multiplier ^ backoffExp n ≤
        cfg.backoff_multiplier ^ backoffExp (n + 1) :=
      pow_le_pow_right₀ (le_of_lt hmul) hexp
    exact mul_le_mul_of_nonneg_left hpow (by positivity)
  · show (Int.floor (((1000 : ℕ) : ℚ) * (2 : ℚ) ^ backoffExp 1)).toNat = 1000
    rw [show backoffExp 1 = 0 by decide]
    exact hdef 0 1000 (by norm_num)
  · show (Int.floor (((1000 : ℕ) : ℚ) * (2 : ℚ) ^ backoffExp 2)).toNat = 2000
    rw [show backoffExp 2 = 1 by decide]
    exact hdef 1 2000 (by norm_num)
  · show (Int.floor (((1000 : ℕ) : ℚ) * (2 : ℚ) ^ backoffExp 3)).toNat = 4000
    rw [show backoffExp 3 = 2 by decide]
    exact hdef 2 4000 (by norm_num)

/-- `allocIds` hands out consecutive ids from its starting counter, one per
call, across any interleaving of respawns. -/
theorem allocIds_eq_range (es : List BrokerEvent) :
    ∀ n, allocIds n es = List.range' n (es.count .call) := by
  induction es with
  | nil => intro n; rfl
  | cons e es ih =>
    intro n
    cases e with
    | call =>
        rw [show (BrokerEvent.call :: es).count .call = es.count .call + 1 by
          simp [List.count_cons]]
        rw [List.range'_succ]
        simpa [allocIds] using ih (n + 1)
    | respawn =>
        rw [show (BrokerEvent.respawn :: es).count .call = es.count .call by
          simp [List.count_cons]]
        simpa [allocIds] using ih n

/-- Claim C6, counterexample: after one call and a respawn, the next call is
given id 2, not 1 — `spawn_sidecar` never resets `next_rpc_id`, so the id
sequence does not start again from 1 for the new child. -/
theorem respawn_does_not_reset_ids :
    allocIdsFromStart [.call, .respawn, .call] = [1, 2]
    ∧ allocIdsFromStart [.call, .respawn, .call] ≠ [1, 1] := by
  exact ⟨rfl, by decide⟩

/-- Claim C6 (amended): across any sequence of calls and respawns the ids
are exactly 1, 2, 3, … in order — strictly increasing from 1, never reused
(so in particular unique within each child's lifetime); the counter is set
to 1 only at `SidecarProcess::new` and survives respawns unchanged. -/
theorem call_ids_strictly_increasing :
    ∀ es : List BrokerEvent,
      allocIdsFromStart es = List.range' 1 (es.count .call)
      ∧ List.Pairwise (· < ·) (allocIdsFromStart es) := by
  intro es
  have h := allocIds_eq_range es 1
  refine ⟨h, ?_⟩
  rw [allocIdsFromStart, h]
  exact List.pairwise_lt_range' 1 _

/-- Claim C2, counterexample: the child-exit event leaves the pending table
exactly as it was — with a waiter for id 5 outstanding, the table still
holds id 5 after the child exits, where the claim demands it be drained to
empty at that moment.  Neither the monitor's exit handling nor `stop`
touches `pending_requests`. -/
theorem child_exit_leaves_pending_intact :
    pendingStep {5} .childExit = {5}
    ∧ pendingStep {5} PendingEvent.childExit ≠ (∅ : Finset Nat) := by
  exact ⟨rfl, by decide⟩

/-- Claim C2 (amended): every id inserted by `call_rpc` is removed by exactly
one of resolution by the matching response or removal on `call_rpc`'s own
failure paths (write failure, closed channel, 10-second timeout), restoring
the table to its pre-call content and hence size; child exit removes
nothing — waiters outstanding then are failed by their own 10-second
timeouts, not at the moment of exit. -/
theorem pending_entry_lifecycle :
    (∀ (s : Finset Nat) (i : Nat), i ∉ s →
      pendingStep (pendingStep s (.insertWaiter i)) (.resolve i) = s
      ∧ pendingStep (pendingStep s (.insertWaiter i)) (.rpcTimeout i) = s
      ∧ pendingStep (pendingStep s (.insertWaiter i)) (.writeFail i) = s
      ∧ pendingStep (pendingStep s (.insertWaiter i)) (.chanClosed i) = s)
    ∧ (∀ s : Finset Nat, pendingStep s .childExit = s) := by
  refine ⟨?_, fun s => rfl⟩
  intro s i h
  simp [pendingStep, Finset.erase_insert h]

/-- Claim C10: when stdin is missing or any of the three stdin writes fails,
`call_rpc` returns an error and removes the id it inserted, leaving the
pending table exactly as before the call; only the id counter has advanced. -/
theorem call_rpc_failed_send_restores_pending :
    ∀ (s : RpcState) (env : RpcEnv),
      s.next_rpc_id ∉ s.pending_requests →
      env.stdinAvailable = false ∨ env.writeResult ≠ .ok →
      (call_rpc s env).1.pending_requests = s.pending_requests
      ∧ (call_rpc s env).1.next_rpc_id = s.next_rpc_id + 1
      ∧ ((call_rpc s env).2 = .stdinUnavailable ∨ (call_rpc s env).2 = .writeFailed) := by
  intro s env h hfail
  rcases env with ⟨avail, wr, aw⟩
  rcases hfail with hstdin | hwr
  · subst hstdin
    simp [call_rpc, Finset.erase_insert h]
  · cases avail
    · simp [call_rpc, Finset.erase_insert h]
    · cases wr
      · exact absurd rfl hwr
      · simp [call_rpc, Finset.erase_insert h]
      · simp [call_rpc, Finset.erase_insert h]
      · simp [call_rpc, Finset.erase_insert h]

/-- Witness for claim C10 at a concrete input: a call on a counter at 7 with
an empty table and no stdin handle fails and leaves the table empty. -/
theorem call_rpc_failed_send_witness :
    (call_rpc ⟨7, ∅⟩ ⟨false, .ok, .timedOut⟩).1.pending_requests =
      RpcState.pending_requests ⟨7, ∅⟩
    ∧ (call_rpc ⟨7, ∅⟩ ⟨false, .ok, .timedOut⟩).1.next_rpc_id =
      RpcState.next_rpc_id ⟨7, ∅⟩ + 1
    ∧ ((call_rpc ⟨7, ∅⟩ ⟨false, .ok, .timedOut⟩).2 = .stdinUnavailable
       ∨ (call_rpc ⟨7, ∅⟩ ⟨false, .ok, .timedOut⟩).2 = .writeFailed) :=
  call_rpc_failed_send_restores_pending ⟨7, ∅⟩ ⟨false, .ok, .timedOut⟩
    (by decide) (Or.inl rfl)

/-- Claim C1: on a JSON-RPC error response the caller was to receive the
peer's `code` and `message`.  Instead the stdout reader forwards only the
`result` member (which an error response lacks), so the waiter receives
`Null` and `call_rpc`'s error branch — which would have surfaced exactly
`-32600` and `"Invalid Request"` had the full frame arrived — never fires:
the call returns success with `Null`. -/
theorem error_reply_swallowed :
    rpcCallOutcome errorFrame = .ok .null
    ∧ interpretRpcReply errorFrame = .error (-32600, "Invalid Request")
    ∧ (call_rpc ⟨1, ∅⟩ ⟨true, .ok, .reply errorFrame⟩).2 = .success .null := by
  exact ⟨rfl, rfl, rfl⟩

/-- Claim C3, counterexample: a request with no `Authorization` header and a
`Cookie` header `xpryx_admin_token=tok` — a differently-named cookie, not a
`pryx_admin_token` cookie matching the token — carries neither credential,
yet the middleware proceeds, because Rust `str::contains` finds
`pryx_admin_token=tok` as a substring of the header.  The claim demands 401
here. -/
theorem cookie_substring_bypasses_auth :
    auth_middleware none (some "xpryx_admin_token=tok") "tok" = .proceed
    ∧ specHasAdminCookie (some "xpryx_admin_token=tok") "tok" = false
    ∧ (none : Option String) ≠ some ("Bearer " ++ "tok") := by
  refine ⟨by decide, by decide, by simp⟩

/-- Claim C3 (amended): a request proceeds iff its `Authorization` header is
exactly `Bearer <token>` or its `Cookie` header contains
`pryx_admin_token=<token>` as a substring; in particular any well-formed
cookie pair with that name and value lets it proceed, but so does any other
header text containing the substring, so only the 401 direction of the claim
fails.  Both checks are plain string comparisons, not constant-time. -/
theorem auth_gate_characterization :
    ∀ (a c : Option String) (t : String),
      (a = some ("Bearer " ++ t) → auth_middleware a c t = .proceed)
      ∧ (∀ s, c = some s → carriesAdminCookie s t → auth_middleware a c t = .proceed)
      ∧ (auth_middleware a c t = .unauthorized ↔
          (a ≠ some ("Bearer " ++ t)
           ∧ ∀ s, c = some s →
               ¬ (("pryx_admin_token=" ++ t).toList <:+: s.toList))) := by
  intro a c t
  refine ⟨?_, ?_, ?_⟩
  · intro h
    unfold auth_middleware
    rw [if_pos h]
  · intro s hc hcar
    obtain ⟨pre, post, hres, -, -⟩ := hcar
    have hinf : ("pryx_admin_token=" ++ t).toList <:+: s.toList := ⟨pre, post, hres.symm⟩
    subst hc
    by_cases hb : a = some ("Bearer " ++ t)
    · unfold auth_middleware
      rw [if_pos hb]
    · unfold auth_middleware
      rw [if_neg hb]
      show (if ("pryx_admin_token=" ++ t).toList <:+: s.toList
        then AuthOutcome.proceed else .unauthorized) = .proceed
      rw [if_pos hinf]
  · constructor
    · intro h
      by_cases hb : a = some ("Bearer " ++ t)
      · unfold auth_middleware at h
        rw [if_pos hb] at h
        simp at h
      · refine ⟨hb, ?_⟩
        intro s hc hinf
        subst hc
        unfold auth_middleware at h
        rw [if_neg hb] at h
        have h' : (if ("pryx_admin_token=" ++ t).toList <:+: s.toList
            then AuthOutcome.proceed else .unauthorized) = .unauthorized := h
        rw [if_pos hinf] at h'
        simp at h'
    · rintro ⟨hb, hcook⟩
      cases c with
      | none =>
        unfold auth_middleware
        rw [if_neg hb]
      | some s =>
        unfold auth_middleware
        rw [if_neg hb]
        show (if ("pryx_admin_token=" ++ t).toList <:+: s.toList
          then AuthOutcome.proceed else .unauthorized) = .unauthorized
        rw [if_neg (hcook s rfl)]

/-- Claim C4, counterexample: with static root `srv/ui` and a symlink
`srv/ui/link -> /etc` on disk, the request `link/passwd` contains no `..`,
its joined target `srv/ui/link/passwd` passes the lexical `starts_with`
guard, and the handler serves it — yet its canonicalized path
(`std::fs::canonicalize`, the function the handler itself applies to the
base at `routes.rs` line 27, resolves symlinks) is `/etc/passwd`, outside
the root.  The claim demands 403 here; the code never canonicalizes the
target, so no 403 is produced. -/
theorem symlink_escapes_static_root :
    static_files_handler ["srv", "ui"] ["link", "passwd"]
      = .serve ["srv", "ui", "link", "passwd"]
    ∧ resolveSymlinks demoLinks (staticTarget ["srv", "ui"] ["link", "passwd"])
      = ["etc", "passwd"]
    ∧ ¬ (["srv", "ui"] <+: resolveSymlinks demoLinks
          (staticTarget ["srv", "ui"] ["link", "passwd"]))
    ∧ static_files_handler ["srv", "ui"] ["link", "passwd"] ≠ .forbidden := by
  exact ⟨by decide, by decide, by decide, by decide⟩

/-- Claim C4 (amended): a request path containing a `..` segment is rejected
(400, before any target path is formed or compared).  The escape check,
however, is lexical only: the handler compares the uncanonicalized join
`base ++ sanitized` against the base, a prefix that holds by construction
once `..` and empty segments are filtered, so the 403 branch never fires —
every request that passes the `..` check is served from the lexical join,
and a symlink beneath the root can take the canonicalized target outside the
root without a 403. -/
theorem static_handler_lexical_only :
    ∀ base segs : List String,
      (".." ∈ segs → static_files_handler base segs = .badRequest)
      ∧ static_files_handler base segs ≠ .forbidden
      ∧ (pathHasDotdotSub segs = false →
          static_files_handler base segs = .serve (staticTarget base segs)) := by
  intro base segs
  have hpre : base <+: staticTarget base segs := by
    unfold staticTarget
    by_cases h : (sanitizeSegs segs).isEmpty
    · rw [if_pos h]
      exact ⟨_, rfl⟩
    · rw [if_neg h]
      exact ⟨_, rfl⟩
  refine ⟨?_, ?_, ?_⟩
  · intro hdd
    have : pathHasDotdotSub segs = true :=
      List.any_eq_true.mpr ⟨"..", hdd, by decide⟩
    simp [static_files_handler, this]
  · unfold static_files_handler
    by_cases hd : pathHasDotdotSub segs = true
    · rw [if_pos hd]
      simp
    · rw [if_neg hd, if_pos hpre]
      simp
  · intro hd
    unfold static_files_handler
    rw [if_neg (by simp [hd]), if_pos hpre]

/-! ### The stop-versus-restart race (claim C5)

A concrete interleaving: the monitor reads `Running` at its loop top, then a
`stop()` call runs to completion (`Stopping` written, child reaped,
`Stopped` written), and only then does the monitor inspect the now-empty
child cell — it concludes the child crashed, transitions to `Restarting`
and respawns, all after `Stopping` was observed. -/

def c5sRead : SupSys :=
  { cfg := defaultSidecarConfig, state := .running, child := some true,
    monPC := .atCheck .running, stopPC := .idle, localCrash := 0,
    sharedCrash := 0, spawns := 1, stoppingSeen := false }

def c5sStopped : SupSys :=
  { cfg := defaultSidecarConfig, state := .stopped, child := none,
    monPC := .atCheck .running, stopPC := .finished, localCrash := 0,
    sharedCrash := 0, spawns := 1, stoppingSeen := true }

def c5sCrashPath : SupSys :=
  { cfg := defaultSidecarConfig, state := .stopped, child := none,
    monPC := .atCrash, stopPC := .finished, localCrash := 0,
    sharedCrash := 0, spawns := 1, stoppingSeen := true }

def c5sRestarting : SupSys :=
  { cfg := defaultSidecarConfig,
    state := .restarting (calculate_backoff 1 defaultSidecarConfig), child := none,
    monPC := .atBackoff, stopPC := .finished, localCrash := 1,
    sharedCrash := 0, spawns := 1, stoppingSeen := true }

def c5sRespawned : SupSys :=
  { cfg := defaultSidecarConfig, state := .running, child := some true,
    monPC := .atRead, stopPC := .finished, localCrash := 1,
    sharedCrash := 0, spawns := 2, stoppingSeen := true }

/-- Claim C5, counterexample: a reachable interleaving in which `stop()` has
fully completed (`Stopping` observed, `stoppingSeen`), after which the
monitor still transitions to `Restarting` and respawns the child: the
monitor's loop-top state read predated the `stop()` and the crash check
cannot tell a reaped child from a crashed one. -/
theorem stop_then_restart_race :
    SupReach (supInit defaultSidecarConfig) c5sCrashPath
    ∧ c5sCrashPath.stoppingSeen = true
    ∧ c5sCrashPath.stopPC = .finished
    ∧ SupStep c5sCrashPath c5sRestarting
    ∧ c5sRestarting.state = .restarting 1000
    ∧ SupStep c5sRestarting c5sRespawned
    ∧ c5sRespawned.spawns = c5sRestarting.spawns + 1 := by
  refine ⟨?_, rfl, rfl, ?_, ?_, ?_, rfl⟩
  · refine Relation.ReflTransGen.head (SupStep.readState _ rfl) ?_
    refine Relation.ReflTransGen.head (SupStep.stopBegin _ rfl) ?_
    refine Relation.ReflTransGen.head (SupStep.stopReap _ rfl) ?_
    refine Relation.ReflTransGen.head (SupStep.stopFinish _ rfl) ?_
    refine Relation.ReflTransGen.head
      (SupStep.checkDead c5sStopped .running rfl (Or.inl rfl) (by simp [c5sStopped])) ?_
    exact Relation.ReflTransGen.refl
  · exact SupStep.crashRestart c5sCrashPath rfl (by decide)
  · show SidecarState.restarting (calculate_backoff 1 defaultSidecarConfig) =
      .restarting 1000
    rw [show calculate_backoff 1 defaultSidecarConfig = 1000 by
      show (Int.floor (((1000 : ℕ) : ℚ) * (2 : ℚ) ^ backoffExp 1)).toNat = 1000
      rw [show backoffExp 1 = 0 by decide, floor_cast_mul_pow]; decide]
  · exact SupStep.restartSpawn c5sRestarting rfl

/-- Claim C5 (amended): a respawn happens only from the backoff point of the
restart path, the restart path is entered only from a loop-top read that
observed `Running` or `Starting`, and a monitor iteration whose read
observes `Stopping` goes straight back to the loop top without touching the
restart path.  What fails in the original claim is only the race: a `stop()`
that lands after the monitor's read does not stop that iteration from
respawning once. -/
theorem restart_only_after_observing_live_state :
    ∀ s s' : SupSys,
      (SupStep s s' → s.spawns < s'.spawns → s.monPC = .atBackoff)
      ∧ (SupStep s s' → s.monPC ≠ .atCrash → s'.monPC = .atCrash →
          ∃ obs, s.monPC = .atCheck obs ∧ (obs = .running ∨ obs = .starting))
      ∧ (SupStep s s' → s.monPC = .atCheck .stopping →
          s'.monPC ≠ .atCrash ∧ s'.monPC ≠ .atBackoff) := by
  intro s s'
  refine ⟨?_, ?_, ?_⟩
  · intro hstep hlt
    cases hstep <;> simp_all
  · intro hstep hne hcrash
    cases hstep with
    | readState h => exact MonPC.noConfusion hcrash
    | checkIdle obs h hobs => exact MonPC.noConfusion hcrash
    | checkAlive obs h hobs hchild => exact MonPC.noConfusion hcrash
    | checkDead obs h hobs hchild => exact ⟨obs, h, hobs⟩
    | crashExceeded h hmax => exact MonPC.noConfusion hcrash
    | crashRestart h hmax => exact MonPC.noConfusion hcrash
    | restartSpawn h => exact MonPC.noConfusion hcrash
    | restartSpawnFail h => exact MonPC.noConfusion hcrash
    | childDies h => exact absurd hcrash hne
    | stopBegin h => exact absurd hcrash hne
    | stopReap h => exact absurd hcrash hne
    | stopFinish h => exact absurd hcrash hne
  · intro hstep hobs
    cases hstep with
    | readState h => exact MonPC.noConfusion (h.symm.trans hobs)
    | checkIdle obs h hobs2 =>
        exact ⟨fun hc => MonPC.noConfusion hc, fun hc => MonPC.noConfusion hc⟩
    | checkAlive obs h hobs2 hchild =>
        have h3 : obs = SidecarState.stopping := by
          have h2 := h.symm.trans hobs
          injection h2
        rcases hobs2 with h4 | h4 <;>
          exact SidecarState.noConfusion (h4.symm.trans h3)
    | checkDead obs h hobs2 hchild =>
        have h3 : obs = SidecarState.stopping := by
          have h2 := h.symm.trans hobs
          injection h2
        rcases hobs2 with h4 | h4 <;>
          exact SidecarState.noConfusion (h4.symm.trans h3)
    | crashExceeded h hmax => exact MonPC.noConfusion (h.symm.trans hobs)
    | crashRestart h hmax => exact MonPC.noConfusion (h.symm.trans hobs)
    | restartSpawn h => exact MonPC.noConfusion (h.symm.trans hobs)
    | restartSpawnFail h => exact MonPC.noConfusion (h.symm.trans hobs)
    | childDies h =>
        exact ⟨fun hc => MonPC.noConfusion (hobs.symm.trans hc),
               fun hc => MonPC.noConfusion (hobs.symm.trans hc)⟩
    | stopBegin h =>
        exact ⟨fun hc => MonPC.noConfusion (hobs.symm.trans hc),
               fun hc => MonPC.noConfusion (hobs.symm.trans hc)⟩
    | stopReap h =>
        exact ⟨fun hc => MonPC.noConfusion (hobs.symm.trans hc),
               fun hc => MonPC.noConfusion (hobs.symm.trans hc)⟩
    | stopFinish h =>
        exact ⟨fun hc => MonPC.noConfusion (hobs.symm.trans hc),
               fun hc => MonPC.noConfusion (hobs.symm.trans hc)⟩

/-! ### The crash counter never reaches `status()` (claim C7)

The always-crashing scenario with `max_restarts = 3`: the local counter in
`monitor` reaches 1, 2, 3, 4 and the terminal state is `Crashed{attempts:4}`
— but the `SidecarProcess.crash_count` field that `status()` reports is
never written by any code path and stays 0 throughout. -/

/-- The crash-loop scenario config of the claim: `max_restarts = 3`,
`initial_backoff_ms = 10`, `multiplier = 2.0`. -/
def crashLoopCfg : SidecarConfig :=
  { max_restarts := 3, initial_backoff_ms := 10, backoff_multiplier := 2 }

/-- The system after `k` completed crash-restart rounds: child alive again,
monitor at its loop top, local counter at `k`. -/
def crashLoopRound (k : Nat) : SupSys :=
  { cfg := crashLoopCfg, state := .running, child := some true,
    monPC := .atRead, stopPC := .idle, localCrash := k, sharedCrash := 0,
    spawns := k + 1, stoppingSeen := false }

/-- The terminal state of the crash loop: `Crashed{attempts:4}`, monitor
returned. -/
def crashLoopFinal : SupSys :=
  { cfg := crashLoopCfg, state := .crashed 4, child := none,
    monPC := .exited, stopPC := .idle, localCrash := 4, sharedCrash := 0,
    spawns := 4, stoppingSeen := false }

/-- One crash-restart round under the cap: the child dies, the monitor
notices, backs off and respawns. -/
theorem crashLoopRound_step (k : Nat) (h : k < 3) :
    SupReach (crashLoopRound k) (crashLoopRound (k + 1)) := by
  refine Relation.ReflTransGen.head (SupStep.childDies _ rfl) ?_
  refine Relation.ReflTransGen.head (SupStep.readState _ rfl) ?_
  refine Relation.ReflTransGen.head
    (SupStep.checkDead _ .running rfl (Or.inl rfl) (by simp [crashLoopRound])) ?_
  refine Relation.ReflTransGen.head
    (SupStep.crashRestart _ rfl (by show ¬(0 < 3 ∧ 3 < k + 1); omega)) ?_
  refine Relation.ReflTransGen.head (SupStep.restartSpawn _ rfl) ?_
  exact Relation.ReflTransGen.refl

/-- Claim C7: with `max_restarts = 3` and an always-crashing child, the
monitor's local counter visits 1, 2, 3 while every `status()` snapshot
reports `crash_count = 0` — the `SidecarProcess.crash_count` field is never
written — and the run ends in `Crashed{attempts:4}` with the monitor
returned, after which no step can respawn. -/
theorem crash_count_not_surfaced :
    SupReach (supInit crashLoopCfg) (crashLoopRound 1)
    ∧ (crashLoopRound 1).localCrash = 1
    ∧ statusCrashCount (crashLoopRound 1) = 0
    ∧ SupReach (crashLoopRound 1) crashLoopFinal
    ∧ crashLoopFinal.state = .crashed 4
    ∧ crashLoopFinal.localCrash = 4
    ∧ statusCrashCount crashLoopFinal = 0
    ∧ crashLoopFinal.monPC = .exited := by
  refine ⟨?_, rfl, rfl, ?_, rfl, rfl, rfl, rfl⟩
  · exact crashLoopRound_step 0 (by omega)
  · refine Relation.ReflTransGen.trans (crashLoopRound_step 1 (by omega)) ?_
    refine Relation.ReflTransGen.trans (crashLoopRound_step 2 (by omega)) ?_
    refine Relation.ReflTransGen.head (SupStep.childDies _ rfl) ?_
    refine Relation.ReflTransGen.head (SupStep.readState _ rfl) ?_
    refine Relation.ReflTransGen.head
      (SupStep.checkDead _ .running rfl (Or.inl rfl) (by simp [crashLoopRound])) ?_
    refine Relation.ReflTransGen.head (SupStep.crashExceeded _ rfl (by decide)) ?_
    exact Relation.ReflTransGen.refl

end Pryx
